import Mathlib

/-!
# Reconnecting Session Manager — verification of `useWebSocket` / `useWorkflowWebSocket`

Shallow embedding of the WebSocket hook module (the `useWebSocket` and
`useWorkflowWebSocket` React hooks).  Mutable refs (`wsRef`,
`reconnectTimeoutRef`, `pingIntervalRef`, `mountedRef`) and React state cells
(`connectionState`, `lastMessage`, `messages`, `reconnectAttempts`) become the
fields of `HookState`; each event handler becomes a total function on
`HookState`; the asynchronous environment (transport events, timer firings,
API calls) becomes an event type `Ev` with a deterministic `step` function.
State updates inside one handler are modelled as the sequential composition
the handler performs, observed atomically at handler exit (React batches the
`setState` calls of a single event callback into one re-render).

Resource accounting: every allocation site (`new WebSocket`, `setTimeout`,
`setInterval`) is modelled so that overwriting a ref that still holds a live
resource is recorded in a `leaked…` counter instead of silently dropping it.
The resource-safety claims are then statements that the leak counters stay
zero and that at most one of each resource is ever live.
-/

namespace Quanta

/-- `WebSocketState` enumeration from the source (`connecting` … `error`). -/
inductive WebSocketState where
  | connecting
  | connected
  | disconnected
  | reconnecting
  | error
deriving DecidableEq, Repr

/-- Browser-transport `readyState` of one WebSocket object. -/
inductive ReadyState where
  | CONNECTING
  | OPEN
  | CLOSING
  | CLOSED
deriving DecidableEq, Repr

/-- `WebSocketMessage` / envelope: `type` and `timestamp` are mandatory, the
remaining fields are the optional properties the module reads
(`content` for text fallback, the `WorkflowUpdate` fields for the
aggregator).  A JS property that may be `undefined` is an `Option`. -/
structure WebSocketMessage where
  type : String
  timestamp : Nat
  content : Option String := none
  workflow_id : Option String := none
  status : Option String := none
  message : Option String := none
  progress_percentage : Option Nat := none
  agent_name : Option String := none
deriving DecidableEq, Repr

/-- A frame written to the transport: either the JSON serialization of an
object payload (`JSON.stringify`) or a string payload passed verbatim. -/
inductive OutFrame where
  | serialized (m : WebSocketMessage)
  | raw (s : String)
deriving DecidableEq, Repr

/-- One WebSocket object: its `readyState` and the frames sent on it. -/
structure Transport where
  readyState : ReadyState
  sent : List OutFrame := []
deriving DecidableEq, Repr

/-- A `setTimeout` handle still stored in a ref: pending with its delay, or
already fired (the source never nulls `reconnectTimeoutRef` when the timer
fires, so a spent handle can remain referenced). -/
inductive TimerStatus where
  | pendingT (delay : Nat)
  | firedT
deriving DecidableEq, Repr

/-- `UseWebSocketConfig` with the defaults of the source. -/
structure Config where
  url : String := "ws://localhost:8000"
  clientId : String
  reconnectInterval : Nat := 3000
  maxReconnectAttempts : Nat := 5
  pingInterval : Nat := 30000

/-- The complete mutable state of one hook instance: React state cells,
refs, and the resource-leak ghost counters (observable allocations that no
ref points to any more).  `warnings` counts `console.warn` diagnostics. -/
structure HookState where
  mounted : Bool
  connectionState : WebSocketState
  lastMessage : Option WebSocketMessage
  messages : List WebSocketMessage
  reconnectAttempts : Nat
  ws : Option Transport
  reconnectTimer : Option TimerStatus
  pingTimer : Bool
  leakedTransports : Nat
  leakedReconnectTimers : Nat
  leakedPingTimers : Nat
  warnings : Nat
deriving DecidableEq, Repr

/-- Initial hook state: `useState` initials (`DISCONNECTED`, `null`, `[]`,
`0`), all refs `null`, `mountedRef` initialized `true`. -/
def initState : HookState where
  mounted := true
  connectionState := .disconnected
  lastMessage := none
  messages := []
  reconnectAttempts := 0
  ws := none
  reconnectTimer := none
  pingTimer := false
  leakedTransports := 0
  leakedReconnectTimers := 0
  leakedPingTimers := 0
  warnings := 0

/-- 1 when the ref holds a transport that is not closed (a live transport). -/
def liveWs : Option Transport → Nat
  | some t => if t.readyState = .CLOSED then 0 else 1
  | none => 0

/-- 1 when the ref holds a still-pending reconnect timer. -/
def pendingTimer : Option TimerStatus → Nat
  | some (.pendingT _) => 1
  | _ => 0

/-- `wsRef.current = ws` — storing a fresh transport; if the ref still held a
live transport it becomes unreachable and is recorded as leaked. -/
def setWs (t : Transport) (s : HookState) : HookState :=
  { s with ws := some t, leakedTransports := s.leakedTransports + liveWs s.ws }

/-- `reconnectTimeoutRef.current = setTimeout(…, delay)` — scheduling a new
reconnect timer; a still-pending timer in the ref would leak. -/
def scheduleReconnect (delay : Nat) (s : HookState) : HookState :=
  { s with reconnectTimer := some (.pendingT delay),
           leakedReconnectTimers := s.leakedReconnectTimers + pendingTimer s.reconnectTimer }

/-- `pingIntervalRef.current = setInterval(sendPing, pingInterval)` — a live
interval already in the ref would leak. -/
def startPing (s : HookState) : HookState :=
  { s with pingTimer := true,
           leakedPingTimers := s.leakedPingTimers + (if s.pingTimer then 1 else 0) }

/-- `cleanup`: clear the reconnect timeout and null its ref, clear the ping
interval and null its ref, close the transport and null its ref.  Clearing a
ref that is already null (or whose timer already fired) is a no-op, exactly
as `clearTimeout` / `clearInterval` / `close()` are. -/
def cleanup (s : HookState) : HookState :=
  { s with reconnectTimer := none, pingTimer := false, ws := none }

/-- `sendPing`: send `{type:"ping",timestamp:Date.now()}` only when
`wsRef.current?.readyState === WebSocket.OPEN`. -/
def sendPing (now : Nat) (s : HookState) : HookState :=
  match s.ws with
  | some t =>
      if t.readyState = .OPEN then
        { s with ws := some { t with
            sent := t.sent ++ [.serialized { type := "ping", timestamp := now }] } }
      else s
  | none => s

/-- `connect`: bail out when unmounted; otherwise run `cleanup()`, enter
CONNECTING, and construct the new transport (`ctorOk = false` is the
`catch` branch of a throwing `new WebSocket`, which enters ERROR). -/
def connect (ctorOk : Bool) (s : HookState) : HookState :=
  if s.mounted = false then s
  else
    let s1 := cleanup s
    let s2 := { s1 with connectionState := WebSocketState.connecting }
    if ctorOk then setWs { readyState := .CONNECTING } s2
    else { s2 with connectionState := WebSocketState.error }

/-- `ws.onopen` handler: guard on `mountedRef`, enter CONNECTED, reset the
attempt counter, start the ping interval. -/
def wsOnopen (s : HookState) : HookState :=
  if s.mounted = false then s
  else
    startPing { s with connectionState := WebSocketState.connected, reconnectAttempts := 0 }

/-- `ws.onmessage` handler: guard on `mountedRef`; `JSON.parse` success is
`parsed = some m`, failure is `parsed = none`, in which case the raw data is
wrapped as a `"text"` envelope stamped with the current time.  Either way the
envelope overwrites `lastMessage` and is appended to `messages`. -/
def wsOnmessage (parsed : Option WebSocketMessage) (raw : String) (now : Nat)
    (s : HookState) : HookState :=
  if s.mounted = false then s
  else
    match parsed with
    | some m => { s with lastMessage := some m, messages := s.messages ++ [m] }
    | none =>
        let textMessage : WebSocketMessage := { type := "text", content := some raw, timestamp := now }
        { s with lastMessage := some textMessage, messages := s.messages ++ [textMessage] }

/-- `ws.onclose` handler: guard on `mountedRef`, enter DISCONNECTED, clear
the ping interval; then, when the close was abnormal (`code ≠ 1000`) and the
attempt budget is not exhausted, enter RECONNECTING, increment the attempt
counter and schedule one retry after `reconnectInterval`. -/
def wsOnclose (cfg : Config) (code : Nat) (s : HookState) : HookState :=
  if s.mounted = false then s
  else
    let s1 := { s with connectionState := WebSocketState.disconnected, pingTimer := false }
    if code ≠ 1000 ∧ s1.reconnectAttempts < cfg.maxReconnectAttempts then
      scheduleReconnect cfg.reconnectInterval
        { s1 with connectionState := WebSocketState.reconnecting,
                  reconnectAttempts := s1.reconnectAttempts + 1 }
    else s1

/-- `ws.onerror` handler: guard on `mountedRef`, enter ERROR. -/
def wsOnerror (s : HookState) : HookState :=
  if s.mounted = false then s
  else { s with connectionState := WebSocketState.error }

/-- Body of the scheduled retry: `if (mountedRef.current) connect()`. -/
def reconnectTimerCallback (ctorOk : Bool) (s : HookState) : HookState :=
  if s.mounted then connect ctorOk s else s

/-- Outbound payload accepted by `sendMessage`: a plain string or an object. -/
inductive OutMsg where
  | strMsg (s : String)
  | objMsg (m : WebSocketMessage)
deriving DecidableEq, Repr

/-- `sendMessage`: transmit only when `wsRef.current?.readyState === OPEN`
(objects JSON-serialized, strings verbatim); otherwise `console.warn` and do
nothing else. -/
def sendMessage (msg : OutMsg) (s : HookState) : HookState :=
  match s.ws with
  | some t =>
      if t.readyState = .OPEN then
        let frame := match msg with
          | .strMsg str => OutFrame.raw str
          | .objMsg m => OutFrame.serialized m
        { s with ws := some { t with sent := t.sent ++ [frame] } }
      else { s with warnings := s.warnings + 1 }
  | none => { s with warnings := s.warnings + 1 }

/-- `reconnect`: reset the attempt counter to 0 and re-invoke `connect`. -/
def reconnect (ctorOk : Bool) (s : HookState) : HookState :=
  connect ctorOk { s with reconnectAttempts := 0 }

/-- `clearMessages`. -/
def clearMessages (s : HookState) : HookState :=
  { s with messages := [], lastMessage := none }

/-- The asynchronous environment: hook lifecycle, transport events for the
currently referenced transport, timer firings, and API calls. -/
inductive Ev where
  | mountEv (ctorOk : Bool)
  | unmountEv
  | openEv
  | messageEv (parsed : Option WebSocketMessage) (raw : String) (now : Nat)
  | closeEv (code : Nat)
  | errorEv
  | retryFireEv (ctorOk : Bool)
  | pingFireEv (now : Nat)
  | reconnectEv (ctorOk : Bool)
  | sendEv (m : OutMsg)
  | clearEv

/-- One environment step.  Transport events are deliverable only for the
currently referenced transport in an appropriate `readyState` (the browser
moves `readyState` before dispatching the handler: `open` ⇒ OPEN,
`close` ⇒ CLOSED, `error` while failing the connection ⇒ CLOSING); a timer
fires only while pending (firing marks the handle spent but, as in the
source, does not null the ref). -/
def step (cfg : Config) (e : Ev) (s : HookState) : HookState :=
  match e with
  | .mountEv ctorOk => connect ctorOk { s with mounted := true }
  | .unmountEv => cleanup { s with mounted := false }
  | .openEv =>
      match s.ws with
      | some t =>
          if t.readyState = .CONNECTING then
            wsOnopen { s with ws := some { t with readyState := .OPEN } }
          else s
      | none => s
  | .messageEv parsed raw now =>
      match s.ws with
      | some t => if t.readyState = .OPEN then wsOnmessage parsed raw now s else s
      | none => s
  | .closeEv code =>
      match s.ws with
      | some t =>
          if t.readyState ≠ .CLOSED then
            wsOnclose cfg code { s with ws := some { t with readyState := .CLOSED } }
          else s
      | none => s
  | .errorEv =>
      match s.ws with
      | some t =>
          if t.readyState = .CONNECTING ∨ t.readyState = .OPEN then
            wsOnerror { s with ws := some { t with readyState := .CLOSING } }
          else s
      | none => s
  | .retryFireEv ctorOk =>
      match s.reconnectTimer with
      | some (.pendingT _) =>
          reconnectTimerCallback ctorOk { s with reconnectTimer := some .firedT }
      | _ => s
  | .pingFireEv now => if s.pingTimer then sendPing now s else s
  | .reconnectEv ctorOk => reconnect ctorOk s
  | .sendEv m => sendMessage m s
  | .clearEv => clearMessages s

/-- Run a list of environment events from a state. -/
def run (cfg : Config) (evs : List Ev) (s : HookState) : HookState :=
  evs.foldl (fun t e => step cfg e t) s

/-- The states one hook instance can actually be in. -/
def Reachable (cfg : Config) (s : HookState) : Prop :=
  ∃ evs : List Ev, s = run cfg evs initState

/-- A configuration with all defaults (`maxReconnectAttempts = 5`,
`reconnectInterval = 3000`, `pingInterval = 30000`). -/
def cfg0 : Config := { clientId := "client-1" }

/-- `n` retry cycles: an abnormal closure (code 1006) followed by the
scheduled retry timer firing, so consecutive abnormal closures of a flapping
connection can be iterated. -/
def closeRetryCycles (cfg : Config) : Nat → HookState → HookState
  | 0, s => s
  | n + 1, s =>
      step cfg (.retryFireEv true) (step cfg (.closeEv 1006) (closeRetryCycles cfg n s))

/-- Mount, connect successfully, then suffer five abnormal closures with the
scheduled retry firing between consecutive ones. -/
def fiveAbnormalClosures : List Ev :=
  [.mountEv true, .openEv,
   .closeEv 1006, .retryFireEv true,
   .closeEv 1006, .retryFireEv true,
   .closeEv 1006, .retryFireEv true,
   .closeEv 1006, .retryFireEv true,
   .closeEv 1006]

/-!
## The subscription effect of `useWorkflowWebSocket`

The effect body is: when `webSocket.isConnected && workflowId`, send one
subscribe control frame.  Its dependency array is
`[webSocket.isConnected, workflowId, webSocket]`, and `useWebSocket` returns
a freshly built object literal on every render, so the third dependency has
a different identity on every render; it is modelled by the render index.
React runs an effect after a render exactly when it is the first render or
some dependency differs (by identity) from the value it had on the previous
render.
-/

/-- What one render of `useWorkflowWebSocket` observes. -/
structure RenderInput where
  isConnected : Bool
  workflowId : Option String
deriving DecidableEq, Repr

/-- JS truthiness of the optional `workflowId` string (`undefined` and the
empty string are falsy). -/
def topicTruthy : Option String → Bool
  | some str => str ≠ ""
  | none => false

/-- The dependency tuple of the subscription effect at render `idx`:
`[webSocket.isConnected, workflowId, webSocket]`, the last entry being the
per-render identity of the `webSocket` object. -/
def subscribeDeps (idx : Nat) (r : RenderInput) : Bool × Option String × Nat :=
  (r.isConnected, r.workflowId, idx)

/-- Subscribe frames sent over a render sequence, under the React rule:
the effect body runs after a render iff the dependency tuple differs from
the previous render (or there is no previous render); the body sends one
frame when the conjunction holds. -/
def subscribeFramesAux : Option (Bool × Option String × Nat) → Nat → List RenderInput → Nat
  | _, _, [] => 0
  | prev, idx, r :: rest =>
      (if prev ≠ some (subscribeDeps idx r) ∧ r.isConnected = true ∧ topicTruthy r.workflowId = true
       then 1 else 0)
      + subscribeFramesAux (some (subscribeDeps idx r)) (idx + 1) rest

/-- Total subscribe frames the source sends over a render sequence. -/
def subscribeFrames (renders : List RenderInput) : Nat :=
  subscribeFramesAux none 0 renders

/-- Modelled from the spec: the SubscriptionController contract — send
exactly one subscribe frame per false→true transition of
`(connectionState == CONNECTED) ∧ (targetTopic ≠ null)`, never merely
because a render occurs while the conjunction stays true. -/
def subscribeFramesSpecAux : Bool → List RenderInput → Nat
  | _, [] => 0
  | prev, r :: rest =>
      (if (r.isConnected && topicTruthy r.workflowId) = true ∧ prev = false then 1 else 0)
      + subscribeFramesSpecAux (r.isConnected && topicTruthy r.workflowId) rest

/-- Frame count the specification mandates for a render sequence. -/
def subscribeFramesSpec (renders : List RenderInput) : Nat :=
  subscribeFramesSpecAux false renders

/-!
## The workflow-update aggregator of `useWorkflowWebSocket`
-/

/-- The `currentWorkflowStatus` snapshot.  `status` and `message` mirror the
JS values read off the envelope (absent ⇒ `undefined` ⇒ `none`); `progress`
and `currentAgent` carry the defaults the source applies. -/
structure WorkflowStatusSnapshot where
  status : Option String
  progress : Nat
  currentAgent : String
  message : Option String
deriving DecidableEq, Repr

/-- The three workflow-status envelope types the aggregator matches. -/
def isWorkflowUpdateType (ty : String) : Bool :=
  ty = "workflow_started" || ty = "workflow_completed" || ty = "agent_status"

/-- Body of the message-processing effect: a matching envelope is appended to
the `workflowUpdates` log and the snapshot is replaced wholesale with fields
taken from that envelope (the JS fallbacks `progress_percentage || 0` and
the empty-string fallback on `agent_name` agree with `Option.getD` on these
value spaces, since a present `0` or a present empty string is mapped to the
same value as the default); any other envelope changes nothing. -/
def processWorkflowMessage (st : List WebSocketMessage × Option WorkflowStatusSnapshot)
    (m : WebSocketMessage) : List WebSocketMessage × Option WorkflowStatusSnapshot :=
  if isWorkflowUpdateType m.type then
    (st.1 ++ [m],
     some { status := m.status,
            progress := m.progress_percentage.getD 0,
            currentAgent := m.agent_name.getD "",
            message := m.message })
  else st

/-- Fold the aggregator over a stream of envelopes starting from the initial
`([], null)` state. -/
def aggregateWorkflow (msgs : List WebSocketMessage) :
    List WebSocketMessage × Option WorkflowStatusSnapshot :=
  msgs.foldl processWorkflowMessage ([], none)

/-- `{type:"agent_status", status:"processing", agent_name:"Data", message:"m1"}`. -/
def msgAgentStatus : WebSocketMessage :=
  { type := "agent_status", timestamp := 1, status := some "processing",
    agent_name := some "Data", message := some "m1" }

/-- `{type:"workflow_completed", status:"completed", message:"m2"}` — no
`agent_name`, no `progress_percentage`. -/
def msgCompleted : WebSocketMessage :=
  { type := "workflow_completed", timestamp := 2, status := some "completed",
    message := some "m2" }

/-- A non-workflow envelope (heartbeat reply). -/
def msgPong : WebSocketMessage := { type := "pong", timestamp := 3 }

/-- The state after mounting and a successful transport open: CONNECTED,
attempt counter 0, heartbeat running. -/
def connectedState : HookState := run cfg0 [.mountEv true, .openEv] initState

/-- A connected state with a nonzero attempt counter, to exercise the
close-code-1000 path regardless of attempt count. -/
def connectedAttempts7 : HookState := { connectedState with reconnectAttempts := 7 }

/-- A state holding a pending reconnect timer, to exercise teardown while a
retry is scheduled. -/
def pendingTimerState : HookState :=
  { initState with reconnectTimer := some (.pendingT 3000) }

/-- A torn-down instance: liveness flag false. -/
def unmountedState : HookState := { initState with mounted := false }

/-!
## The inductive invariant

`Inv` is the strengthening of the single-session resource invariant that is
preserved by every environment step: no resource has leaked, an unmounted
instance holds no resources, a live transport excludes a pending retry timer
(so `onclose` never overwrites a pending timer), a still-connecting transport
excludes a running ping interval (so `onopen` never overwrites a live
interval), and an OPEN transport implies state CONNECTED (the send gate).
-/

def Inv (s : HookState) : Prop :=
  s.leakedTransports = 0 ∧
  s.leakedReconnectTimers = 0 ∧
  s.leakedPingTimers = 0 ∧
  (s.mounted = false → s.ws = none ∧ s.reconnectTimer = none ∧ s.pingTimer = false) ∧
  (liveWs s.ws = 1 → pendingTimer s.reconnectTimer = 0) ∧
  (∀ t, s.ws = some t → t.readyState = .CONNECTING → s.pingTimer = false) ∧
  (∀ t, s.ws = some t → t.readyState = .OPEN → s.connectionState = .connected)

theorem inv_initState : Inv initState := by
  refine ⟨rfl, rfl, rfl, ?_, ?_, ?_, ?_⟩ <;> simp [initState, liveWs, pendingTimer]

theorem inv_connect (ctorOk : Bool) (s : HookState) (h : Inv s) :
    Inv (connect ctorOk s) := by
  obtain ⟨hT, hR, hP, hM, hA, hB, hC⟩ := h
  unfold connect cleanup setWs
  by_cases hm : s.mounted = false
  · simpa [hm] using ⟨hT, hR, hP, hM, hA, hB, hC⟩
  · cases ctorOk <;>
      simp_all [liveWs, pendingTimer, Inv]

theorem inv_step (cfg : Config) (e : Ev) (s : HookState) (h : Inv s) :
    Inv (step cfg e s) := by
  obtain ⟨hT, hR, hP, hM, hA, hB, hC⟩ := h
  cases e with
  | mountEv ctorOk =>
      exact inv_connect ctorOk _ ⟨hT, hR, hP, by simp, hA, hB, hC⟩
  | unmountEv =>
      refine ⟨hT, hR, hP, ?_, ?_, ?_, ?_⟩ <;> simp [step, cleanup, liveWs, pendingTimer]
  | openEv =>
      rcases hws : s.ws with _ | t
      · simpa [step, hws] using ⟨hT, hR, hP, hM, hA, hB, hC⟩
      · by_cases hrs : t.readyState = .CONNECTING
        · have hmt : s.mounted = true := by
            by_contra hmf
            have := (hM (by simpa using hmf)).1
            simp [hws] at this
          have hping : s.pingTimer = false := hB t hws hrs
          have hlive : liveWs s.ws = 1 := by simp [liveWs, hws, hrs]
          have htimer := hA hlive
          refine ⟨?_, ?_, ?_, ?_, ?_, ?_, ?_⟩ <;>
            simp_all [step, hws, hrs, wsOnopen, startPing, liveWs, pendingTimer]
        · simpa [step, hws, hrs] using ⟨hT, hR, hP, hM, hA, hB, hC⟩
  | messageEv parsed raw now =>
      rcases hws : s.ws with _ | t
      · simpa [step, hws] using ⟨hT, hR, hP, hM, hA, hB, hC⟩
      · by_cases hrs : t.readyState = .OPEN
        · have hmt : s.mounted = true := by
            by_contra hmf
            have := (hM (by simpa using hmf)).1
            simp [hws] at this
          cases parsed <;>
            · refine ⟨?_, ?_, ?_, ?_, ?_, ?_, ?_⟩ <;>
                simp_all [step, hws, hrs, wsOnmessage, liveWs, pendingTimer]
        · simpa [step, hws, hrs] using ⟨hT, hR, hP, hM, hA, hB, hC⟩
  | closeEv code =>
      rcases hws : s.ws with _ | t
      · simpa [step, hws] using ⟨hT, hR, hP, hM, hA, hB, hC⟩
      · by_cases hrs : t.readyState = .CLOSED
        · simpa [step, hws, hrs] using ⟨hT, hR, hP, hM, hA, hB, hC⟩
        · have hmt : s.mounted = true := by
            by_contra hmf
            have := (hM (by simpa using hmf)).1
            simp [hws] at this
          have hlive : liveWs s.ws = 1 := by simp [liveWs, hws, hrs]
          have htimer := hA hlive
          by_cases hcode : code = 1000
          · refine ⟨?_, ?_, ?_, ?_, ?_, ?_, ?_⟩ <;>
              simp_all [step, hws, hrs, wsOnclose, scheduleReconnect, liveWs, pendingTimer]
          · by_cases hatt : s.reconnectAttempts < cfg.maxReconnectAttempts
            · refine ⟨?_, ?_, ?_, ?_, ?_, ?_, ?_⟩ <;>
                simp_all [step, hws, hrs, wsOnclose, scheduleReconnect, liveWs, pendingTimer]
            · refine ⟨?_, ?_, ?_, ?_, ?_, ?_, ?_⟩ <;>
                simp_all [step, hws, hrs, wsOnclose, scheduleReconnect, liveWs, pendingTimer,
                  if_neg hatt]
  | errorEv =>
      rcases hws : s.ws with _ | t
      · simpa [step, hws] using ⟨hT, hR, hP, hM, hA, hB, hC⟩
      · by_cases hrs : t.readyState = .CONNECTING ∨ t.readyState = .OPEN
        · have hmt : s.mounted = true := by
            by_contra hmf
            have := (hM (by simpa using hmf)).1
            simp [hws] at this
          have hlive : liveWs s.ws = 1 := by
            rcases hrs with h1 | h1 <;> simp [liveWs, hws, h1]
          have htimer := hA hlive
          refine ⟨?_, ?_, ?_, ?_, ?_, ?_, ?_⟩ <;>
            simp_all [step, hws, hrs, wsOnerror, liveWs, pendingTimer]
        · simpa [step, hws, hrs] using ⟨hT, hR, hP, hM, hA, hB, hC⟩
  | retryFireEv ctorOk =>
      rcases hrt : s.reconnectTimer with _ | st
      · simpa [step, hrt] using ⟨hT, hR, hP, hM, hA, hB, hC⟩
      · cases st with
        | firedT => simpa [step, hrt] using ⟨hT, hR, hP, hM, hA, hB, hC⟩
        | pendingT d =>
            have hmt : s.mounted = true := by
              by_contra hmf
              have := (hM (by simpa using hmf)).2.1
              simp [hrt] at this
            simp only [step, hrt, reconnectTimerCallback, hmt, if_true]
            exact inv_connect ctorOk _
              ⟨hT, hR, hP, by simp [hmt], by simp [pendingTimer],
               fun t ht _ => hB t ht ‹_›, fun t ht h2 => hC t ht h2⟩
  | pingFireEv now =>
      by_cases hpt : s.pingTimer
      · rcases hws : s.ws with _ | t
        · simpa [step, hpt, sendPing, hws] using ⟨hT, hR, hP, hM, hA, hB, hC⟩
        · by_cases hrs : t.readyState = .OPEN
          · refine ⟨?_, ?_, ?_, ?_, ?_, ?_, ?_⟩ <;>
              simp_all [step, hpt, sendPing, hws, hrs, liveWs, pendingTimer]
          · simpa [step, hpt, sendPing, hws, hrs] using ⟨hT, hR, hP, hM, hA, hB, hC⟩
      · simpa [step, hpt] using ⟨hT, hR, hP, hM, hA, hB, hC⟩
  | reconnectEv ctorOk =>
      exact inv_connect ctorOk _
        ⟨hT, hR, hP, fun hm => hM hm, hA, hB, hC⟩
  | sendEv m =>
      rcases hws : s.ws with _ | t
      · refine ⟨?_, ?_, ?_, ?_, ?_, ?_, ?_⟩ <;>
          simp_all [step, sendMessage, hws, liveWs, pendingTimer]
      · by_cases hrs : t.readyState = .OPEN
        · refine ⟨?_, ?_, ?_, ?_, ?_, ?_, ?_⟩ <;>
            simp_all [step, sendMessage, hws, hrs, liveWs, pendingTimer]
        · refine ⟨?_, ?_, ?_, ?_, ?_, ?_, ?_⟩ <;>
            simp_all [step, sendMessage, hws, hrs, liveWs, pendingTimer]
  | clearEv =>
      refine ⟨?_, ?_, ?_, ?_, ?_, ?_, ?_⟩ <;>
        simp_all [step, clearMessages, liveWs, pendingTimer]

theorem inv_run (cfg : Config) (evs : List Ev) (s : HookState) (h : Inv s) :
    Inv (run cfg evs s) := by
  induction evs generalizing s with
  | nil => exact h
  | cons e rest ih => exact ih _ (inv_step cfg e s h)

theorem inv_reachable (cfg : Config) (s : HookState) (h : Reachable cfg s) : Inv s := by
  obtain ⟨evs, rfl⟩ := h
  exact inv_run cfg evs initState inv_initState

/-!
## The claims
-/

/-- C1: single-session resource invariant — in every reachable state there is
at most one live (non-closed) transport, at most one pending reconnect
timer and at most one running heartbeat interval, counting also resources no
ref points to any more; and `connect` always runs `cleanup` first, so
connecting from any state equals connecting from the cleaned state, which is
what preserves the invariant across rapid repeated `reconnect()` calls. -/
theorem c1_single_session_resource_invariant (cfg : Config) (s : HookState)
    (h : Reachable cfg s) :
    liveWs s.ws + s.leakedTransports ≤ 1 ∧
    pendingTimer s.reconnectTimer + s.leakedReconnectTimers ≤ 1 ∧
    (if s.pingTimer then 1 else 0) + s.leakedPingTimers ≤ 1 ∧
    (∀ ctorOk, s.mounted = true → connect ctorOk s = connect ctorOk (cleanup s)) := by
  obtain ⟨hT, hR, hP, -, -, -, -⟩ := inv_reachable cfg s h
  refine ⟨?_, ?_, ?_, fun ctorOk hm => by simp [connect, cleanup, hm]⟩
  · rcases s.ws with _ | t
    · simp [liveWs, hT]
    · simp only [liveWs, hT]
      split <;> simp
  · rcases s.reconnectTimer with _ | st
    · simp [pendingTimer, hR]
    · cases st <;> simp [pendingTimer, hR]
  · cases s.pingTimer <;> simp [hP]

/-- C1 witness: the invariant at a concrete reachable state (after a mount,
an open, and five abnormal closure / retry rounds). -/
theorem c1_witness :
    Reachable cfg0 (run cfg0 fiveAbnormalClosures initState) ∧
    liveWs (run cfg0 fiveAbnormalClosures initState).ws
        + (run cfg0 fiveAbnormalClosures initState).leakedTransports ≤ 1 ∧
    pendingTimer (run cfg0 fiveAbnormalClosures initState).reconnectTimer
        + (run cfg0 fiveAbnormalClosures initState).leakedReconnectTimers ≤ 1 := by
  have h : Reachable cfg0 (run cfg0 fiveAbnormalClosures initState) :=
    ⟨fiveAbnormalClosures, rfl⟩
  have hc := c1_single_session_resource_invariant cfg0 _ h
  exact ⟨h, hc.1, hc.2.1⟩

/-- C2: an abnormal close (code ≠ 1000) under the attempt budget moves
CONNECTED to RECONNECTING in one observable step (the handler runs
atomically: its two `setConnectionState` calls are batched into a single
re-render, so no other state is observable in between), stops the heartbeat
interval, increments the attempt counter, and schedules exactly one retry
timer with delay `reconnectInterval` — the runtime fires a timer no earlier
than its delay — after whose firing (with a succeeding constructor) the
state is CONNECTING. -/
theorem c2_abnormal_close_to_reconnecting (cfg : Config) (s : HookState)
    (t : Transport) (code : Nat)
    (h : Reachable cfg s)
    (hm : s.mounted = true)
    (_hst : s.connectionState = WebSocketState.connected)
    (hws : s.ws = some t)
    (hrs : t.readyState ≠ ReadyState.CLOSED)
    (hcode : code ≠ 1000)
    (hatt : s.reconnectAttempts < cfg.maxReconnectAttempts) :
    (step cfg (.closeEv code) s).connectionState = WebSocketState.reconnecting ∧
    (step cfg (.closeEv code) s).pingTimer = false ∧
    (step cfg (.closeEv code) s).reconnectAttempts = s.reconnectAttempts + 1 ∧
    (step cfg (.closeEv code) s).reconnectTimer
        = some (TimerStatus.pendingT cfg.reconnectInterval) ∧
    (step cfg (.closeEv code) s).leakedReconnectTimers = s.leakedReconnectTimers ∧
    (step cfg (.retryFireEv true) (step cfg (.closeEv code) s)).connectionState
        = WebSocketState.connecting := by
  obtain ⟨-, -, -, -, hA, -, -⟩ := inv_reachable cfg s h
  have hlive : liveWs s.ws = 1 := by simp [liveWs, hws, hrs]
  have hnt := hA hlive
  refine ⟨?_, ?_, ?_, ?_, ?_, ?_⟩ <;>
    simp [step, hws, hrs, wsOnclose, hm, hcode, hatt, scheduleReconnect, hnt,
      reconnectTimerCallback, connect, cleanup, setWs, liveWs]

/-- C2 witness: from the concrete CONNECTED state, an abnormal 1006 close
goes to RECONNECTING with a 3000 ms retry scheduled, and the retry firing
re-enters CONNECTING. -/
theorem c2_witness :
    (step cfg0 (.closeEv 1006) connectedState).connectionState
        = WebSocketState.reconnecting ∧
    (step cfg0 (.closeEv 1006) connectedState).reconnectTimer
        = some (TimerStatus.pendingT 3000) ∧
    (step cfg0 (.retryFireEv true) (step cfg0 (.closeEv 1006) connectedState)).connectionState
        = WebSocketState.connecting := by
  have hc := c2_abnormal_close_to_reconnecting cfg0 connectedState
    { readyState := .OPEN, sent := [] } 1006 ⟨[.mountEv true, .openEv], rfl⟩
    rfl rfl rfl (by decide) (by decide) (by decide)
  exact ⟨hc.1, hc.2.2.2.1, hc.2.2.2.2.2⟩

/-- C6: for every raw inbound frame the handler produces exactly one
envelope and never throws outward (it is a total function): a frame that
parses becomes that envelope; otherwise it degrades to one `"text"` envelope
whose content is the raw input and whose timestamp is the current time;
either way the envelope overwrites the last-message slot and is appended to
the ordered log. -/
theorem c6_inbound_frame_one_envelope (s : HookState)
    (parsed : Option WebSocketMessage) (raw : String) (now : Nat)
    (hm : s.mounted = true) :
    (wsOnmessage parsed raw now s).messages
        = s.messages ++ [parsed.getD { type := "text", content := some raw, timestamp := now }] ∧
    (wsOnmessage parsed raw now s).lastMessage
        = some (parsed.getD { type := "text", content := some raw, timestamp := now }) ∧
    (parsed = none →
      (wsOnmessage parsed raw now s).lastMessage
          = some { type := "text", content := some raw, timestamp := now }) := by
  cases parsed <;> simp [wsOnmessage, hm]

/-- C6 witness: the malformed frame `"hello"` yields exactly one `"text"`
envelope carrying the raw input. -/
theorem c6_witness :
    (wsOnmessage none "hello" 42 initState).messages
        = [{ type := "text", content := some "hello", timestamp := 42 }] ∧
    (wsOnmessage none "hello" 42 initState).lastMessage
        = some { type := "text", content := some "hello", timestamp := 42 } := by
  have hc := c6_inbound_frame_one_envelope initState none "hello" 42 rfl
  exact ⟨hc.1, hc.2.1⟩

/-- C7: a close with code 1000 goes directly to DISCONNECTED, stops the
heartbeat interval, and schedules no retry timer (the timer ref, the leak
counter and the attempt counter are untouched), regardless of the current
attempt count. -/
theorem c7_normal_close_no_retry (cfg : Config) (s : HookState) (t : Transport)
    (hm : s.mounted = true) (hws : s.ws = some t)
    (hrs : t.readyState ≠ ReadyState.CLOSED) :
    (step cfg (.closeEv 1000) s).connectionState = WebSocketState.disconnected ∧
    (step cfg (.closeEv 1000) s).pingTimer = false ∧
    (step cfg (.closeEv 1000) s).reconnectTimer = s.reconnectTimer ∧
    (step cfg (.closeEv 1000) s).leakedReconnectTimers = s.leakedReconnectTimers ∧
    (step cfg (.closeEv 1000) s).reconnectAttempts = s.reconnectAttempts := by
  refine ⟨?_, ?_, ?_, ?_, ?_⟩ <;> simp [step, hws, hrs, wsOnclose, hm]

/-- C7 witness: normal closure from a connected state with attempt count 7
(past the default budget) still just disconnects without scheduling. -/
theorem c7_witness :
    (step cfg0 (.closeEv 1000) connectedAttempts7).connectionState
        = WebSocketState.disconnected ∧
    (step cfg0 (.closeEv 1000) connectedAttempts7).reconnectTimer = none ∧
    (step cfg0 (.closeEv 1000) connectedAttempts7).reconnectAttempts = 7 := by
  have hc := c7_normal_close_no_retry cfg0 connectedAttempts7
    { readyState := .OPEN, sent := [] } rfl rfl (by decide)
  exact ⟨hc.1, hc.2.2.1, hc.2.2.2.2⟩

/-- C8: teardown is idempotent and total: `cleanup` is a function (never
throws), running it twice equals running it once, afterwards the reconnect
timer ref, the heartbeat ref and the transport handle are all null, and on
an already-clean state it changes nothing. -/
theorem c8_cleanup_idempotent_total (s : HookState) :
    cleanup (cleanup s) = cleanup s ∧
    (cleanup s).reconnectTimer = none ∧
    (cleanup s).pingTimer = false ∧
    (cleanup s).ws = none ∧
    (s.reconnectTimer = none → s.pingTimer = false → s.ws = none → cleanup s = s) := by
  refine ⟨rfl, rfl, rfl, rfl, fun h1 h2 h3 => ?_⟩
  cases s
  simp_all [cleanup]

/-- C8 witness: teardown with a pending reconnect timer, run twice, and
teardown of an already-clean state. -/
theorem c8_witness :
    cleanup (cleanup pendingTimerState) = cleanup pendingTimerState ∧
    (cleanup pendingTimerState).reconnectTimer = none ∧
    (cleanup pendingTimerState).ws = none ∧
    cleanup initState = initState := by
  have h1 := c8_cleanup_idempotent_total pendingTimerState
  have h2 := c8_cleanup_idempotent_total initState
  exact ⟨h1.1, h1.2.1, h1.2.2.2.1, h2.2.2.2.2 rfl rfl rfl⟩

/-- C9: cancellation safety — once the liveness flag is false, every
asynchronous callback (open, message, close and error handlers, and the
scheduled retry body) returns the state unchanged: no state cell mutated,
no timer scheduled, no transport opened. -/
theorem c9_callbacks_noop_after_teardown (cfg : Config) (s : HookState)
    (parsed : Option WebSocketMessage) (raw : String) (now code : Nat)
    (ctorOk : Bool) (hm : s.mounted = false) :
    wsOnopen s = s ∧
    wsOnmessage parsed raw now s = s ∧
    wsOnclose cfg code s = s ∧
    wsOnerror s = s ∧
    reconnectTimerCallback ctorOk s = s := by
  refine ⟨?_, ?_, ?_, ?_, ?_⟩ <;>
    simp [wsOnopen, wsOnmessage, wsOnclose, wsOnerror, reconnectTimerCallback, hm]

/-- C9 witness: concrete stray events against a torn-down instance are
no-ops. -/
theorem c9_witness :
    wsOnopen unmountedState = unmountedState ∧
    wsOnmessage (some msgPong) "" 7 unmountedState = unmountedState ∧
    wsOnclose cfg0 1006 unmountedState = unmountedState ∧
    reconnectTimerCallback true unmountedState = unmountedState := by
  have hc := c9_callbacks_noop_after_teardown cfg0 unmountedState
    (some msgPong) "" 7 1006 true rfl
  exact ⟨hc.1, hc.2.1, hc.2.2.1, hc.2.2.2.2⟩

/-- C10: send gating — in any reachable state that is not CONNECTED,
`sendMessage` transmits nothing and only emits a warning diagnostic
(its gate is the transport ready state, which the invariant ties to the
CONNECTED state); when it does transmit, an object payload goes out
serialized and a string payload goes out verbatim. -/
theorem c10_send_gating (cfg : Config) (s : HookState) (m : OutMsg)
    (h : Reachable cfg s) :
    (s.connectionState ≠ WebSocketState.connected →
        sendMessage m s = { s with warnings := s.warnings + 1 }) ∧
    (∀ t str, s.ws = some t → t.readyState = ReadyState.OPEN →
        sendMessage (.strMsg str) s
          = { s with ws := some { t with sent := t.sent ++ [.raw str] } }) ∧
    (∀ t mo, s.ws = some t → t.readyState = ReadyState.OPEN →
        sendMessage (.objMsg mo) s
          = { s with ws := some { t with sent := t.sent ++ [.serialized mo] } }) := by
  obtain ⟨-, -, -, -, -, -, hC⟩ := inv_reachable cfg s h
  refine ⟨?_, ?_, ?_⟩
  · intro hst
    rcases hws : s.ws with _ | t
    · simp [sendMessage, hws]
    · have hop : t.readyState ≠ ReadyState.OPEN := fun hop => hst (hC t hws hop)
      simp [sendMessage, hws, hop]
  · intro t str hws hop
    simp [sendMessage, hws, hop]
  · intro t mo hws hop
    simp [sendMessage, hws, hop]

/-- C10 witness: sending while DISCONNECTED only warns and changes nothing
else. -/
theorem c10_witness :
    initState.connectionState ≠ WebSocketState.connected ∧
    sendMessage (.strMsg "hello") initState
        = { initState with warnings := initState.warnings + 1 } := by
  have hc := c10_send_gating cfg0 initState (.strMsg "hello") ⟨[], rfl⟩
  exact ⟨by decide, hc.1 (by decide)⟩

/-- One abnormal closure / retry round from a live, timer-free, mounted
state: the connection ends CONNECTING on a fresh transport with the attempt
counter bumped by one. -/
theorem closeRetryCycle_step (cfg : Config) (s : HookState) (t : Transport)
    (hm : s.mounted = true) (hws : s.ws = some t)
    (hrs : t.readyState ≠ ReadyState.CLOSED)
    (hrt : s.reconnectTimer = none)
    (hatt : s.reconnectAttempts < cfg.maxReconnectAttempts) :
    step cfg (.retryFireEv true) (step cfg (.closeEv 1006) s)
      = { s with connectionState := WebSocketState.connecting,
                 reconnectAttempts := s.reconnectAttempts + 1,
                 ws := some { readyState := .CONNECTING, sent := [] },
                 reconnectTimer := none,
                 pingTimer := false } := by
  simp [step, hws, hrs, wsOnclose, hm, hatt, scheduleReconnect, hrt, pendingTimer,
    reconnectTimerCallback, connect, cleanup, setWs, liveWs]

/-- Iterating `k ≤ maxReconnectAttempts` abnormal closure / retry rounds
from a fresh connected state leaves the manager CONNECTING with attempt
counter `k`. -/
theorem closeRetryCycles_spec (cfg : Config) (s : HookState) (t : Transport)
    (hm : s.mounted = true) (hws : s.ws = some t)
    (hrs : t.readyState ≠ ReadyState.CLOSED)
    (hrt : s.reconnectTimer = none) (hatt : s.reconnectAttempts = 0) :
    ∀ k, 0 < k → k ≤ cfg.maxReconnectAttempts →
      closeRetryCycles cfg k s
        = { s with connectionState := WebSocketState.connecting,
                   reconnectAttempts := k,
                   ws := some { readyState := .CONNECTING, sent := [] },
                   reconnectTimer := none,
                   pingTimer := false } := by
  intro k
  induction k with
  | zero => omega
  | succ n ih =>
      intro _ hle
      rcases Nat.eq_zero_or_pos n with h0 | hpos
      · subst h0
        have h1 : closeRetryCycles cfg 1 s
            = step cfg (.retryFireEv true) (step cfg (.closeEv 1006) s) := rfl
        rw [h1, closeRetryCycle_step cfg s t hm hws hrs hrt (by omega), hatt]
      · have hn := ih hpos (by omega)
        have h1 : closeRetryCycles cfg (n + 1) s
            = step cfg (.retryFireEv true) (step cfg (.closeEv 1006) (closeRetryCycles cfg n s)) := rfl
        rw [h1, hn,
          closeRetryCycle_step cfg
            { s with connectionState := WebSocketState.connecting,
                     reconnectAttempts := n,
                     ws := some { readyState := .CONNECTING, sent := [] },
                     reconnectTimer := none,
                     pingTimer := false }
            { readyState := .CONNECTING, sent := [] }
            hm rfl (by decide) rfl (Nat.lt_of_succ_le hle)]

/-- C3 counterexample: with the default budget `maxReconnectAttempts = 5`,
after exactly 5 consecutive abnormal closures (each followed by its
scheduled retry firing) the manager is still RECONNECTING with a retry
timer pending and the attempt counter at 5 — not DISCONNECTED with no retry
scheduled, as the claim states. -/
theorem c3_counterexample :
    cfg0.maxReconnectAttempts = 5 ∧
    (run cfg0 fiveAbnormalClosures initState).connectionState
        = WebSocketState.reconnecting ∧
    (run cfg0 fiveAbnormalClosures initState).reconnectTimer
        = some (TimerStatus.pendingT 3000) ∧
    (run cfg0 fiveAbnormalClosures initState).reconnectAttempts = 5 := by
  exact ⟨rfl, by decide, by decide, by decide⟩

/-- C3 amended: after `maxAttempts + 1` consecutive abnormal closures — the
drop that starts the retry sequence plus the failure of each of the
`maxAttempts` automatic retries — the manager is DISCONNECTED with no retry
timer scheduled, and from that exhausted state `reconnect()` resets the
attempt counter to 0 and re-enters CONNECTING. -/
theorem c3_retry_budget_amended (cfg : Config) (s : HookState) (t : Transport)
    (hm : s.mounted = true) (hws : s.ws = some t)
    (hrs : t.readyState ≠ ReadyState.CLOSED)
    (hrt : s.reconnectTimer = none) (hatt : s.reconnectAttempts = 0)
    (hmax : 0 < cfg.maxReconnectAttempts) :
    (step cfg (.closeEv 1006) (closeRetryCycles cfg cfg.maxReconnectAttempts s)).connectionState
        = WebSocketState.disconnected ∧
    (step cfg (.closeEv 1006) (closeRetryCycles cfg cfg.maxReconnectAttempts s)).reconnectTimer
        = none ∧
    (reconnect true (step cfg (.closeEv 1006)
        (closeRetryCycles cfg cfg.maxReconnectAttempts s))).reconnectAttempts = 0 ∧
    (reconnect true (step cfg (.closeEv 1006)
        (closeRetryCycles cfg cfg.maxReconnectAttempts s))).connectionState
        = WebSocketState.connecting := by
  rw [closeRetryCycles_spec cfg s t hm hws hrs hrt hatt cfg.maxReconnectAttempts hmax le_rfl]
  refine ⟨?_, ?_, ?_, ?_⟩ <;>
    simp [step, wsOnclose, hm, reconnect, connect, cleanup, setWs, liveWs]

/-- C3 witness for the amended statement, at the concrete connected state
and the default budget. -/
theorem c3_witness :
    (step cfg0 (.closeEv 1006) (closeRetryCycles cfg0 5 connectedState)).connectionState
        = WebSocketState.disconnected ∧
    (step cfg0 (.closeEv 1006) (closeRetryCycles cfg0 5 connectedState)).reconnectTimer
        = none ∧
    (reconnect true (step cfg0 (.closeEv 1006)
        (closeRetryCycles cfg0 5 connectedState))).connectionState
        = WebSocketState.connecting := by
  have hc := c3_retry_budget_amended cfg0 connectedState
    { readyState := .OPEN, sent := [] } rfl rfl (by decide) rfl rfl (by decide)
  exact ⟨hc.1, hc.2.1, hc.2.2.2⟩

/-- C4 (code deviates from the claim): the subscription effect depends on
the `webSocket` object, which is rebuilt on every render, so the effect
re-runs after every render; on the specification trace
false→true→false→true it sends 2 frames as expected, but two consecutive
renders with the conjunction already true also send 2 frames — the claimed
edge-triggered rule mandates exactly 1 there. -/
theorem c4_resubscribes_on_every_render :
    subscribeFrames
        [{ isConnected := true, workflowId := some "wf-1" },
         { isConnected := true, workflowId := some "wf-1" }] = 2 ∧
    subscribeFramesSpec
        [{ isConnected := true, workflowId := some "wf-1" },
         { isConnected := true, workflowId := some "wf-1" }] = 1 ∧
    subscribeFrames
        [{ isConnected := false, workflowId := some "wf-1" },
         { isConnected := true, workflowId := some "wf-1" },
         { isConnected := false, workflowId := some "wf-1" },
         { isConnected := true, workflowId := some "wf-1" }] = 2 ∧
    subscribeFramesSpec
        [{ isConnected := false, workflowId := some "wf-1" },
         { isConnected := true, workflowId := some "wf-1" },
         { isConnected := false, workflowId := some "wf-1" },
         { isConnected := true, workflowId := some "wf-1" }] = 2 := by
  decide

/-- C5: the workflow-update aggregator is last-write-wins with per-field
defaults: a matching envelope is appended to the log and the snapshot is
rebuilt from that envelope alone, absent optional fields resetting to their
defaults (0 / empty string) rather than inheriting the previous snapshot;
any other envelope leaves log and snapshot unchanged; and the concrete
two-envelope example folds to `{completed, 0, "", m2}`. -/
theorem c5_aggregator_last_write_wins :
    (∀ st m, isWorkflowUpdateType m.type = true →
        processWorkflowMessage st m
          = (st.1 ++ [m],
             some { status := m.status,
                    progress := m.progress_percentage.getD 0,
                    currentAgent := m.agent_name.getD "",
                    message := m.message })) ∧
    (∀ st m, isWorkflowUpdateType m.type = false → processWorkflowMessage st m = st) ∧
    aggregateWorkflow [msgAgentStatus, msgCompleted]
      = ([msgAgentStatus, msgCompleted],
         some { status := some "completed", progress := 0, currentAgent := "",
                message := some "m2" }) := by
  refine ⟨?_, ?_, by decide⟩
  · intro st m hty
    simp [processWorkflowMessage, hty]
  · intro st m hty
    simp [processWorkflowMessage, hty]

/-- C5 witness: a matching envelope replaces the snapshot from its own
fields; a non-matching envelope changes nothing. -/
theorem c5_witness :
    processWorkflowMessage ([], none) msgAgentStatus
        = ([msgAgentStatus],
           some { status := some "processing", progress := 0, currentAgent := "Data",
                  message := some "m1" }) ∧
    processWorkflowMessage ([msgAgentStatus], none) msgPong = ([msgAgentStatus], none) := by
  have hc := c5_aggregator_last_write_wins
  exact ⟨hc.1 ([], none) msgAgentStatus (by decide),
         hc.2.1 ([msgAgentStatus], none) msgPong (by decide)⟩

end Quanta
